import Mathlib

/-!
Shallow embedding of the bus-booking web application (`app.py`).

The application keeps two tables (`User`, `Booking`) in a relational store,
a cookie-backed session holding the logged-in user's id, role and display
name, and a handful of request handlers.  Each handler below is translated
from the corresponding Flask route: form fields become explicit `String`
arguments, the database and the session become an explicit `AppState`
record that the handler threads through, and the salt that the password
hashing library draws at each call becomes an explicit `Nat` argument.
-/

/-- Model of a salted password hash as produced by werkzeug's
`generate_password_hash` (an external library, not part of the repository):
the salt together with an idealized collision-free digest of the password,
so that `check_password_hash h pw` succeeds exactly when `pw` is the
password that was hashed. -/
structure PwHash where
  salt : Nat
  digest : String
deriving DecidableEq

def generate_password_hash (salt : Nat) (pw : String) : PwHash := ⟨salt, pw⟩

def check_password_hash (h : PwHash) (pw : String) : Bool := h.digest == pw

/-- Model of Python's `str.strip()`: drop whitespace from both ends. -/
def pyStrip (s : String) : String :=
  ⟨((s.data.dropWhile Char.isWhitespace).reverse.dropWhile Char.isWhitespace).reverse⟩

/-- Model of Python's `str.lower()`: lowercase every character. -/
def pyLower (s : String) : String := ⟨s.data.map Char.toLower⟩

/-- Both `signup` and `login` compute `email.strip().lower()` before any
lookup or store (app.py lines 72 and 100). -/
def normalizeEmail (e : String) : String := pyLower (pyStrip e)

/-- Row of the `User` table (app.py lines 16-21). -/
structure User where
  id : Nat
  name : String
  email : String
  password : PwHash
  role : String
deriving DecidableEq

/-- Row of the `Booking` table (app.py lines 23-32).  `created_at` is the
insertion timestamp (`datetime.utcnow`), modelled as a logical clock. -/
structure Booking where
  id : Nat
  passenger_id : Nat
  trip_date : String
  origin : String
  destination : String
  status : String
  created_at : Nat
deriving DecidableEq

/-- The server-side session: `session["user_id"]`, `session["role"]`,
`session["name"]`. -/
structure Session where
  user_id : Nat
  role : String
  name : String
deriving DecidableEq

/-- The whole mutable state a request handler sees: the two tables in
insertion order, the auto-increment counters, a logical clock for
`created_at`, and the (possibly absent) session. -/
structure AppState where
  users : List User
  bookings : List Booking
  nextUserId : Nat
  nextBookingId : Nat
  clock : Nat
  session : Option Session
deriving DecidableEq

inductive SignupResult where
  | validationError
  | conflictError
  | success
deriving DecidableEq

inductive LoginResult where
  | success
  | failure
deriving DecidableEq

/-- The POST branch of `signup` (app.py lines 68-95).  `name` falls back to
"User" when blank, the email is normalized, then: empty email/password or
an unknown role flashes a validation error; an already-registered email
flashes a conflict and redirects to login; otherwise the user is inserted
with a hashed password and the session is bound to the new user. -/
def signup (st : AppState) (salt : Nat)
    (nameField emailField passwordField roleField : String) :
    SignupResult × AppState :=
  let name := if pyStrip nameField = "" then "User" else pyStrip nameField
  let email := normalizeEmail emailField
  let password := passwordField
  let role := roleField
  if email = "" ∨ password = "" ∨ (role ≠ "passenger" ∧ role ≠ "driver" ∧ role ≠ "admin") then
    (SignupResult.validationError, st)
  else if (st.users.find? (fun u => u.email == email)).isSome then
    (SignupResult.conflictError, st)
  else
    let user : User := ⟨st.nextUserId, name, email, generate_password_hash salt password, role⟩
    (SignupResult.success,
      { st with users := st.users ++ [user],
                nextUserId := st.nextUserId + 1,
                session := some ⟨user.id, user.role, user.name⟩ })

/-- The POST branch of `login` (app.py lines 97-112): normalize the email,
look the user up by email, check the password hash; on success bind the
session to the user, otherwise leave the state untouched. -/
def login (st : AppState) (emailField passwordField : String) :
    LoginResult × AppState :=
  let email := normalizeEmail emailField
  match st.users.find? (fun u => u.email == email) with
  | some u =>
    if check_password_hash u.password passwordField then
      (LoginResult.success, { st with session := some ⟨u.id, u.role, u.name⟩ })
    else (LoginResult.failure, st)
  | none => (LoginResult.failure, st)

/-- `logout` (app.py lines 114-118): clear the session. -/
def logout (st : AppState) : AppState := { st with session := none }

/-- Outcome of a guarded route: either one of the two redirects issued by
the guard, or the page produced by the handler body. -/
inductive RouteResponse (α : Type) where
  | redirectLogin
  | redirectDashboard
  | page (body : α)
deriving DecidableEq

/-- The `require_role` decorator (app.py lines 47-59): with no session,
redirect to the login page; with a session of the wrong role, flash
"not authorized" and redirect to the dashboard; otherwise run the wrapped
handler body. -/
def require_role {α : Type} (role : String) (sess : Option Session)
    (handler : Session → α) : RouteResponse α :=
  match sess with
  | none => RouteResponse.redirectLogin
  | some s =>
    if s.role ≠ role then RouteResponse.redirectDashboard
    else RouteResponse.page (handler s)

/-- The POST branch of `book_trip` (app.py lines 175-198), reached only
under a passenger session: strip the three fields, reject if any is blank,
otherwise insert a Booking with status "Booked" owned by
`session["user_id"]`.  The `Bool` reports success. -/
def book_trip (st : AppState) (dateField originField destinationField : String) :
    Bool × AppState :=
  let trip_date := pyStrip dateField
  let origin := pyStrip originField
  let destination := pyStrip destinationField
  if trip_date = "" ∨ origin = "" ∨ destination = "" then (false, st)
  else
    match st.session with
    | some s =>
      let booking : Booking :=
        ⟨st.nextBookingId, s.user_id, trip_date, origin, destination, "Booked", st.clock⟩
      (true, { st with bookings := st.bookings ++ [booking],
                       nextBookingId := st.nextBookingId + 1,
                       clock := st.clock + 1 })
    | none => (false, st)

/-- Ordering used by `order_by(Booking.created_at.desc())`: newer (larger
timestamp) first. -/
def newerBooking (a b : Booking) : Prop := b.created_at ≤ a.created_at

instance : DecidableRel newerBooking :=
  fun a b => Nat.decLe b.created_at a.created_at

instance : IsTotal Booking newerBooking :=
  ⟨fun a b => Nat.le_total b.created_at a.created_at⟩

instance : IsTrans Booking newerBooking :=
  ⟨fun _ _ _ h1 h2 => Nat.le_trans h2 h1⟩

/-- Ordering used by `order_by(User.id.desc())`: larger id first. -/
def newerUser (a b : User) : Prop := b.id ≤ a.id

instance : DecidableRel newerUser :=
  fun a b => Nat.decLe b.id a.id

instance : IsTotal User newerUser :=
  ⟨fun a b => Nat.le_total b.id a.id⟩

instance : IsTrans User newerUser :=
  ⟨fun _ _ _ h1 h2 => Nat.le_trans h2 h1⟩

/-- `view_bookings` (app.py lines 200-204): the current passenger's
bookings, ordered by `created_at` descending.  `uid` is
`session["user_id"]`. -/
def view_bookings (st : AppState) (uid : Nat) : List Booking :=
  List.insertionSort newerBooking (st.bookings.filter (fun b => b.passenger_id == uid))

/-- The passenger branch of `dashboard` (app.py lines 151-172): bookings of
the current passenger whose status is not "Completed", newest first. -/
def dashboard_upcoming (st : AppState) (uid : Nat) : List Booking :=
  List.insertionSort newerBooking
    (st.bookings.filter (fun b => b.passenger_id == uid && b.status != "Completed"))

/-- The passenger branch of `dashboard` (app.py lines 151-172): bookings of
the current passenger whose status is "Completed", newest first. -/
def dashboard_history (st : AppState) (uid : Nat) : List Booking :=
  List.insertionSort newerBooking
    (st.bookings.filter (fun b => b.passenger_id == uid && b.status == "Completed"))

/-- The POST branch of `profile` (app.py lines 216-231): fetch the session
user's row (`none` models the crash on the unreachable case that the row or
the session is missing); a non-blank name updates the row and the session
copy, a non-blank password is rehashed and stored; everything else on the
row is left alone and the change is committed. -/
def profile_update (st : AppState) (salt : Nat) (nameField passwordField : String) :
    Option AppState :=
  match st.session with
  | none => none
  | some s =>
    match st.users.find? (fun u => u.id == s.user_id) with
    | none => none
    | some _ =>
      let name := pyStrip nameField
      let pwd := pyStrip passwordField
      let upd := fun (u : User) =>
        if u.id == s.user_id then
          { u with name := if name ≠ "" then name else u.name,
                   password := if pwd ≠ "" then generate_password_hash salt pwd
                               else u.password }
        else u
      some { st with
              users := st.users.map upd,
              session := some { s with name := if name ≠ "" then name else s.name } }

/-- The body of `manage_users` (app.py lines 239-243): all users, ordered
by id descending. -/
def manage_users (st : AppState) : List User :=
  List.insertionSort newerUser st.users

/-- The `/manage-users` route: the `manage_users` body wrapped in
`require_role("admin")`. -/
def manage_users_route (st : AppState) : RouteResponse (List User) :=
  require_role "admin" st.session (fun _ => manage_users st)

/-! Helper lemmas shared by several theorems below. -/

theorem find?_email_eq_some {l : List User} {u : User} {e : String}
    (hp : l.Pairwise (fun a b => a.email ≠ b.email))
    (hm : u ∈ l) (he : u.email = e) :
    l.find? (fun x => x.email == e) = some u := by
  induction l with
  | nil => cases hm
  | cons a l ih =>
    rcases List.mem_cons.mp hm with rfl | hm2
    · exact List.find?_cons_of_pos _ (by simpa using he)
    · have hne : a.email ≠ e := by
        have h1 := (List.pairwise_cons.mp hp).1 u hm2
        rw [he] at h1; exact h1
      rw [List.find?_cons_of_neg _ (by simpa using hne)]
      exact ih (List.pairwise_cons.mp hp).2 hm2

theorem orderedInsert_eq_append {α : Type} (r : α → α → Prop) [DecidableRel r]
    (a : α) (l : List α) (h : ∀ b ∈ l, ¬ r a b) :
    List.orderedInsert r a l = l ++ [a] := by
  induction l with
  | nil => rfl
  | cons b l ih =>
    rw [List.orderedInsert, if_neg (h b (List.mem_cons_self b l))]
    rw [ih (fun c hc => h c (List.mem_cons_of_mem b hc))]
    rfl

theorem insertionSort_newerUser_reverse {l : List User}
    (h : l.Pairwise (fun a b => a.id < b.id)) :
    List.insertionSort newerUser l = l.reverse := by
  induction l with
  | nil => rfl
  | cons a l ih =>
    rw [List.insertionSort, ih (List.pairwise_cons.mp h).2,
        orderedInsert_eq_append]
    · simp
    · intro b hb
      have hab : a.id < b.id :=
        (List.pairwise_cons.mp h).1 b (List.mem_reverse.mp hb)
      simp only [newerUser]
      exact Nat.not_le.mpr hab

/-- C1: a user created by `signup` with email `e` and password `p` can later
`login` with the same `(e, p)` pair, which succeeds and binds the session to
that user's id, role and name; and for any stored user whose hash check
rejects the submitted password, `login` with that user's email fails and
leaves the state (in particular the absence of a new session) unchanged. -/
theorem signup_login_roundtrip (st : AppState) (salt : Nat)
    (nm e p r : String) (st2 : AppState) :
    (signup st salt nm e p r = (SignupResult.success, st2) →
      ∃ u : User, st2.users = st.users ++ [u] ∧
        login st2 e p =
          (LoginResult.success, { st2 with session := some ⟨u.id, u.role, u.name⟩ })) ∧
    (∀ u ∈ st.users, st.users.Pairwise (fun a b => a.email ≠ b.email) →
      u.email = normalizeEmail e → check_password_hash u.password p = false →
      login st e p = (LoginResult.failure, st)) := by
  constructor
  · intro h
    simp only [signup] at h
    split at h
    · simp at h
    · split at h
      · simp at h
      · next hfind =>
        have hnone : st.users.find? (fun u => u.email == normalizeEmail e) = none :=
          Option.not_isSome_iff_eq_none.mp hfind
        obtain ⟨-, rfl⟩ := Prod.mk.injEq .. |>.mp h
        refine ⟨_, rfl, ?_⟩
        simp only [login, List.find?_append, hnone, Option.none_or,
          List.find?_cons, beq_self_eq_true, check_password_hash,
          generate_password_hash]
        rfl
  · intro u hm hp he hc
    simp only [login, find?_email_eq_some hp hm he, hc]
    simp

/-- The empty initial state: fresh database, no session. -/
def st0 : AppState := ⟨[], [], 1, 1, 0, none⟩

/-- The state after one successful signup on the empty state. -/
def stA : AppState := (signup st0 7 "Ann" " A@X.com " "pw" "passenger").2

theorem signup_login_roundtrip_witness :
    (∃ u : User, stA.users = st0.users ++ [u] ∧
      login stA " A@X.com " "pw" =
        (LoginResult.success, { stA with session := some ⟨u.id, u.role, u.name⟩ })) ∧
    login stA " A@X.com " "bad" = (LoginResult.failure, stA) := by
  constructor
  · exact (signup_login_roundtrip st0 7 "Ann" " A@X.com " "pw" "passenger" stA).1 (by decide)
  · exact (signup_login_roundtrip stA 7 "Ann" " A@X.com " "bad" "passenger" stA).2
      ⟨1, "Ann", "a@x.com", ⟨7, "pw"⟩, "passenger"⟩
      (by decide) (by decide) (by decide) (by decide)

/-- C2 as stated is false on the code: a signup whose email is not already
registered can still fail — here the password is blank, so the handler
flashes a validation error and creates no user and no session. -/
theorem signup_unused_email_can_fail :
    st0.users = [] ∧
    (signup st0 0 "Ann" "a@x.com" "" "passenger").1 ≠ SignupResult.success ∧
    (signup st0 0 "Ann" "a@x.com" "" "passenger").2 = st0 := by decide

/-- C2 (amended): for every signup request that passes field validation
(non-blank normalized email, non-blank password, role in the allowed set)
and whose email is not already registered, signup succeeds, appends exactly
one new User row, and binds the session to that user; for every signup
request whose email is already registered, signup fails and the state — in
particular the list of User rows — is unchanged. -/
theorem signup_cond_false {e p r : String}
    (h1 : normalizeEmail e ≠ "") (h2 : p ≠ "")
    (h3 : r = "passenger" ∨ r = "driver" ∨ r = "admin") :
    ¬ (normalizeEmail e = "" ∨ p = "" ∨
        (r ≠ "passenger" ∧ r ≠ "driver" ∧ r ≠ "admin")) := by
  rintro (hx | hx | hx)
  · exact h1 hx
  · exact h2 hx
  · rcases h3 with rfl | rfl | rfl
    · exact hx.1 rfl
    · exact hx.2.1 rfl
    · exact hx.2.2 rfl

theorem signup_create_or_reject (st : AppState) (salt : Nat) (nm e p r : String) :
    (normalizeEmail e ≠ "" → p ≠ "" → (r = "passenger" ∨ r = "driver" ∨ r = "admin") →
      (∀ u ∈ st.users, u.email ≠ normalizeEmail e) →
      ∃ user : User,
        (signup st salt nm e p r).1 = SignupResult.success ∧
        (signup st salt nm e p r).2.users = st.users ++ [user] ∧
        (signup st salt nm e p r).2.session = some ⟨user.id, user.role, user.name⟩) ∧
    ((∃ u ∈ st.users, u.email = normalizeEmail e) →
      (signup st salt nm e p r).1 ≠ SignupResult.success ∧
      (signup st salt nm e p r).2 = st) := by
  constructor
  · intro h1 h2 h3 h4
    have hnone : st.users.find? (fun u => u.email == normalizeEmail e) = none :=
      List.find?_eq_none.mpr (fun x hx => by simpa using h4 x hx)
    simp only [signup, hnone, Option.isSome_none, Bool.false_eq_true, if_false]
    rw [if_neg (signup_cond_false h1 h2 h3)]
    exact ⟨_, rfl, rfl, rfl⟩
  · rintro ⟨u, hm, he⟩
    have hsome : (st.users.find? (fun x => x.email == normalizeEmail e)).isSome = true := by
      apply List.find?_isSome.mpr
      exact ⟨u, hm, by simpa using he⟩
    simp only [signup]
    by_cases hc : (normalizeEmail e = "" ∨ p = "" ∨
        (r ≠ "passenger" ∧ r ≠ "driver" ∧ r ≠ "admin"))
    · rw [if_pos hc]
      exact ⟨by simp, rfl⟩
    · rw [if_neg hc, if_pos hsome]
      exact ⟨by simp, rfl⟩

theorem signup_create_or_reject_witness :
    (∃ user : User,
      (signup st0 7 "Ann" " A@X.com " "pw" "passenger").1 = SignupResult.success ∧
      (signup st0 7 "Ann" " A@X.com " "pw" "passenger").2.users = st0.users ++ [user] ∧
      (signup st0 7 "Ann" " A@X.com " "pw" "passenger").2.session =
        some ⟨user.id, user.role, user.name⟩) ∧
    ((signup stA 3 "Bob" "A@X.COM" "pw2" "driver").1 ≠ SignupResult.success ∧
      (signup stA 3 "Bob" "A@X.COM" "pw2" "driver").2 = stA) := by
  constructor
  · exact (signup_create_or_reject st0 7 "Ann" " A@X.com " "pw" "passenger").1
      (by decide) (by decide) (by decide) (by decide)
  · exact (signup_create_or_reject stA 3 "Bob" "A@X.COM" "pw2" "driver").2
      ⟨⟨1, "Ann", "a@x.com", ⟨7, "pw"⟩, "passenger"⟩, by decide, by decide⟩

/-- C3: signup fails with a validation error (state untouched) when the
normalized email is empty, the password is empty, or the role is outside
{passenger, driver, admin}; fails with a conflict error (state untouched)
when the email is already registered; and otherwise appends one User whose
stored password is the salted hash of the submitted password, whose email
is the normalized submitted email and whose role is the submitted role, and
binds the session to the new user's id, role and name. -/
theorem signup_validation_spec (st : AppState) (salt : Nat) (nm e p r : String) :
    ((normalizeEmail e = "" ∨ p = "" ∨
        (r ≠ "passenger" ∧ r ≠ "driver" ∧ r ≠ "admin")) →
      signup st salt nm e p r = (SignupResult.validationError, st)) ∧
    (normalizeEmail e ≠ "" → p ≠ "" → (r = "passenger" ∨ r = "driver" ∨ r = "admin") →
      (∃ u ∈ st.users, u.email = normalizeEmail e) →
      signup st salt nm e p r = (SignupResult.conflictError, st)) ∧
    (normalizeEmail e ≠ "" → p ≠ "" → (r = "passenger" ∨ r = "driver" ∨ r = "admin") →
      (∀ u ∈ st.users, u.email ≠ normalizeEmail e) →
      ∃ user : User,
        signup st salt nm e p r =
          (SignupResult.success,
            { st with users := st.users ++ [user],
                      nextUserId := st.nextUserId + 1,
                      session := some ⟨user.id, user.role, user.name⟩ }) ∧
        user.password = generate_password_hash salt p ∧
        user.email = normalizeEmail e ∧ user.role = r) := by
  refine ⟨?_, ?_, ?_⟩
  · intro h
    simp only [signup]
    rw [if_pos h]
  · intro h1 h2 h3 hreg
    obtain ⟨u, hm, he⟩ := hreg
    have hsome : (st.users.find? (fun x => x.email == normalizeEmail e)).isSome = true := by
      apply List.find?_isSome.mpr
      exact ⟨u, hm, by simpa using he⟩
    simp only [signup]
    rw [if_neg (signup_cond_false h1 h2 h3), if_pos hsome]
  · intro h1 h2 h3 h4
    have hnone : st.users.find? (fun u => u.email == normalizeEmail e) = none :=
      List.find?_eq_none.mpr (fun x hx => by simpa using h4 x hx)
    simp only [signup, hnone, Option.isSome_none, Bool.false_eq_true, if_false]
    rw [if_neg (signup_cond_false h1 h2 h3)]
    exact ⟨_, rfl, rfl, rfl, rfl⟩

theorem signup_validation_spec_witness :
    signup st0 0 "Ann" "a@x.com" "" "passenger" = (SignupResult.validationError, st0) ∧
    signup stA 3 "Bob" "A@X.COM" "pw2" "driver" = (SignupResult.conflictError, stA) ∧
    (∃ user : User,
      signup stA 3 "Bob" "b@x.com" "pw2" "driver" =
        (SignupResult.success,
          { stA with users := stA.users ++ [user],
                     nextUserId := stA.nextUserId + 1,
                     session := some ⟨user.id, user.role, user.name⟩ }) ∧
      user.password = generate_password_hash 3 "pw2" ∧
      user.email = normalizeEmail "b@x.com" ∧ user.role = "driver") := by
  refine ⟨?_, ?_, ?_⟩
  · exact (signup_validation_spec st0 0 "Ann" "a@x.com" "" "passenger").1 (by decide)
  · exact (signup_validation_spec stA 3 "Bob" "A@X.COM" "pw2" "driver").2.1
      (by decide) (by decide) (by decide)
      ⟨⟨1, "Ann", "a@x.com", ⟨7, "pw"⟩, "passenger"⟩, by decide, by decide⟩
  · exact (signup_validation_spec stA 3 "Bob" "b@x.com" "pw2" "driver").2.2
      (by decide) (by decide) (by decide) (by decide)


/-- C4: a route guarded by `require_role(expected)` redirects to the login
page when there is no session; redirects to the dashboard when the session
role differs from the expected role (an admin hitting a passenger-only or
driver-only route included); runs the handler body exactly when the session
role equals the expected role — a `page` response can only arise from a
matching session; and in particular a non-admin session hitting
`/manage-users` is redirected to the dashboard. -/
theorem require_role_guard {α : Type} (role : String) (sess : Option Session)
    (handler : Session → α) (st : AppState) :
    (sess = none → require_role role sess handler = RouteResponse.redirectLogin) ∧
    (∀ s : Session, sess = some s → s.role ≠ role →
      require_role role sess handler = RouteResponse.redirectDashboard) ∧
    (∀ s : Session, sess = some s → s.role = role →
      require_role role sess handler = RouteResponse.page (handler s)) ∧
    (∀ a : α, require_role role sess handler = RouteResponse.page a →
      ∃ s : Session, sess = some s ∧ s.role = role ∧ a = handler s) ∧
    (∀ s : Session, st.session = some s → s.role ≠ "admin" →
      manage_users_route st = RouteResponse.redirectDashboard) := by
  refine ⟨?_, ?_, ?_, ?_, ?_⟩
  · rintro rfl
    rfl
  · rintro s rfl hne
    simp only [require_role]
    rw [if_pos hne]
  · rintro s rfl heq
    simp only [require_role]
    rw [if_neg (fun hc => hc heq)]
  · intro a ha
    cases sess with
    | none => simp [require_role] at ha
    | some s =>
      simp only [require_role] at ha
      by_cases h : s.role ≠ role
      · rw [if_pos h] at ha
        simp at ha
      · rw [if_neg h] at ha
        cases ha
        exact ⟨s, rfl, not_not.mp h, rfl⟩
  · rintro s hs hne
    simp only [manage_users_route, hs, require_role]
    rw [if_pos hne]

theorem require_role_guard_witness :
    require_role "admin" (none : Option Session) (fun _ => (0 : Nat)) =
      RouteResponse.redirectLogin ∧
    require_role "admin" (some ⟨1, "passenger", "Ann"⟩) (fun _ => (0 : Nat)) =
      RouteResponse.redirectDashboard ∧
    require_role "passenger" (some ⟨1, "passenger", "Ann"⟩) (fun s => s.user_id) =
      RouteResponse.page 1 ∧
    manage_users_route stA = RouteResponse.redirectDashboard := by
  refine ⟨?_, ?_, ?_, ?_⟩
  · exact (require_role_guard "admin" none (fun _ => (0 : Nat)) st0).1 rfl
  · exact (require_role_guard "admin" (some ⟨1, "passenger", "Ann"⟩)
      (fun _ => (0 : Nat)) st0).2.1 ⟨1, "passenger", "Ann"⟩ rfl (by decide)
  · exact (require_role_guard "passenger" (some ⟨1, "passenger", "Ann"⟩)
      (fun s => s.user_id) st0).2.2.1 ⟨1, "passenger", "Ann"⟩ rfl rfl
  · exact (require_role_guard "admin" stA.session (fun _ => (0 : Nat)) stA).2.2.2.2
      ⟨1, "passenger", "Ann"⟩ (by decide) (by decide)

/-- C5: under a passenger session, `book_trip` with any blank (after
stripping) field fails and leaves the state — in particular the Booking
table — unchanged; with all three fields non-blank it appends exactly one
Booking row with status "Booked" whose `passenger_id` is the session's
user id. -/
theorem book_trip_spec (st : AppState) (s : Session) (d o dest : String)
    (hs : st.session = some s) :
    ((pyStrip d = "" ∨ pyStrip o = "" ∨ pyStrip dest = "") →
      book_trip st d o dest = (false, st)) ∧
    (pyStrip d ≠ "" → pyStrip o ≠ "" → pyStrip dest ≠ "" →
      book_trip st d o dest =
        (true, { st with
          bookings := st.bookings ++
            [⟨st.nextBookingId, s.user_id, pyStrip d, pyStrip o, pyStrip dest,
              "Booked", st.clock⟩],
          nextBookingId := st.nextBookingId + 1,
          clock := st.clock + 1 })) := by
  constructor
  · intro h
    simp only [book_trip]
    rw [if_pos h]
  · intro h1 h2 h3
    simp only [book_trip, hs]
    rw [if_neg (by rintro (hx | hx | hx) <;> [exact h1 hx; exact h2 hx; exact h3 hx])]

theorem book_trip_spec_witness :
    book_trip stA "2024-01-01" " " "Y" = (false, stA) ∧
    book_trip stA "2024-01-01" "X" "Y" =
      (true, { stA with
        bookings := stA.bookings ++ [⟨1, 1, "2024-01-01", "X", "Y", "Booked", 0⟩],
        nextBookingId := 2,
        clock := 1 }) := by
  constructor
  · exact (book_trip_spec stA ⟨1, "passenger", "Ann"⟩ "2024-01-01" " " "Y"
      (by decide)).1 (by decide)
  · exact (book_trip_spec stA ⟨1, "passenger", "Ann"⟩ "2024-01-01" "X" "Y"
      (by decide)).2 (by decide) (by decide) (by decide)

/-- C6: `view_bookings` returns exactly the Booking rows whose
`passenger_id` is the given session user id — as a permutation of the
filtered table, so with multiplicities — sorted newest-first by creation
timestamp, and never contains another passenger's booking. -/
theorem view_bookings_spec (st : AppState) (uid : Nat) :
    List.Perm (view_bookings st uid)
      (st.bookings.filter (fun b => b.passenger_id == uid)) ∧
    (∀ b : Booking, b ∈ view_bookings st uid ↔
      (b ∈ st.bookings ∧ b.passenger_id = uid)) ∧
    (∀ b : Booking, b ∈ view_bookings st uid → b.passenger_id ≠ uid → False) ∧
    List.Sorted newerBooking (view_bookings st uid) := by
  have hmem : ∀ b : Booking, b ∈ view_bookings st uid ↔
      (b ∈ st.bookings ∧ b.passenger_id = uid) := by
    intro b
    rw [view_bookings, List.mem_insertionSort, List.mem_filter]
    simp
  refine ⟨List.perm_insertionSort _ _, hmem, ?_, List.sorted_insertionSort _ _⟩
  intro b hb hne
  exact hne ((hmem b).mp hb).2

/-- C7: the passenger dashboard's "upcoming" list holds exactly the
passenger's bookings with status ≠ "Completed" and the "history" list
exactly those with status = "Completed"; the two lists are disjoint, their
union is exactly the passenger's bookings, and each is sorted newest-first
by creation timestamp. -/
theorem dashboard_partition_spec (st : AppState) (uid : Nat) :
    (∀ b : Booking, ¬ (b ∈ dashboard_upcoming st uid ∧ b ∈ dashboard_history st uid)) ∧
    (∀ b : Booking,
      (b ∈ dashboard_upcoming st uid ∨ b ∈ dashboard_history st uid) ↔
        (b ∈ st.bookings ∧ b.passenger_id = uid)) ∧
    (∀ b : Booking, b ∈ dashboard_upcoming st uid ↔
      (b ∈ st.bookings ∧ b.passenger_id = uid ∧ b.status ≠ "Completed")) ∧
    (∀ b : Booking, b ∈ dashboard_history st uid ↔
      (b ∈ st.bookings ∧ b.passenger_id = uid ∧ b.status = "Completed")) ∧
    List.Sorted newerBooking (dashboard_upcoming st uid) ∧
    List.Sorted newerBooking (dashboard_history st uid) := by
  have hup : ∀ b : Booking, b ∈ dashboard_upcoming st uid ↔
      (b ∈ st.bookings ∧ b.passenger_id = uid ∧ b.status ≠ "Completed") := by
    intro b
    rw [dashboard_upcoming, List.mem_insertionSort, List.mem_filter]
    simp [and_assoc]
  have hh : ∀ b : Booking, b ∈ dashboard_history st uid ↔
      (b ∈ st.bookings ∧ b.passenger_id = uid ∧ b.status = "Completed") := by
    intro b
    rw [dashboard_history, List.mem_insertionSort, List.mem_filter]
    simp [and_assoc]
  refine ⟨?_, ?_, hup, hh, List.sorted_insertionSort _ _, List.sorted_insertionSort _ _⟩
  · rintro b ⟨h1, h2⟩
    exact ((hup b).mp h1).2.2 ((hh b).mp h2).2.2
  · intro b
    constructor
    · rintro (h | h)
      · exact ⟨((hup b).mp h).1, ((hup b).mp h).2.1⟩
      · exact ⟨((hh b).mp h).1, ((hh b).mp h).2.1⟩
    · rintro ⟨hm, hp⟩
      by_cases hc : b.status = "Completed"
      · exact Or.inr ((hh b).mpr ⟨hm, hp, hc⟩)
      · exact Or.inl ((hup b).mpr ⟨hm, hp, hc⟩)

/-- C8: a profile update under session `s` keeps the user table's length
and every row's id, email and role; rows of other users are untouched; the
session user's row gets the stripped new name when one is supplied and a
rehash of the stripped new password when one is supplied; the session's
name copy follows the name change; bookings are untouched.  Moreover no
operation changes an existing user's role after creation: login, book_trip
and logout leave the user table alone and signup only ever appends. -/
theorem profile_update_frame (st : AppState) (salt : Nat) (nmF pwF : String)
    (s : Session) (st2 : AppState)
    (hs : st.session = some s)
    (hup : profile_update st salt nmF pwF = some st2) :
    st2.users.length = st.users.length ∧
    st2.bookings = st.bookings ∧
    (∀ i (hi : i < st.users.length) (hi2 : i < st2.users.length),
      (st2.users.get ⟨i, hi2⟩).id = (st.users.get ⟨i, hi⟩).id ∧
      (st2.users.get ⟨i, hi2⟩).email = (st.users.get ⟨i, hi⟩).email ∧
      (st2.users.get ⟨i, hi2⟩).role = (st.users.get ⟨i, hi⟩).role ∧
      ((st.users.get ⟨i, hi⟩).id ≠ s.user_id →
        st2.users.get ⟨i, hi2⟩ = st.users.get ⟨i, hi⟩) ∧
      ((st.users.get ⟨i, hi⟩).id = s.user_id →
        (st2.users.get ⟨i, hi2⟩).name =
          (if pyStrip nmF ≠ "" then pyStrip nmF else (st.users.get ⟨i, hi⟩).name) ∧
        (st2.users.get ⟨i, hi2⟩).password =
          (if pyStrip pwF ≠ "" then generate_password_hash salt (pyStrip pwF)
           else (st.users.get ⟨i, hi⟩).password))) ∧
    st2.session = some { s with name := if pyStrip nmF ≠ "" then pyStrip nmF else s.name } ∧
    (∀ e p, ((login st e p).2).users = st.users) ∧
    (∀ d o dest, ((book_trip st d o dest).2).users = st.users) ∧
    (logout st).users = st.users ∧
    (∀ salt2 nm2 e2 p2 r2, ∀ u ∈ st.users, u ∈ (signup st salt2 nm2 e2 p2 r2).2.users) := by
  simp only [profile_update, hs] at hup
  cases hfind : st.users.find? (fun u => u.id == s.user_id) with
  | none => rw [hfind] at hup; cases hup
  | some u0 =>
    rw [hfind] at hup
    obtain rfl := Option.some.injEq .. |>.mp hup |>.symm
    refine ⟨by simp, rfl, ?_, rfl, ?_, ?_, rfl, ?_⟩
    · intro i hi hi2
      have hget : ∀ hj : i < (st.users.map (fun u =>
          if u.id == s.user_id then
            { u with name := if pyStrip nmF ≠ "" then pyStrip nmF else u.name,
                     password := if pyStrip pwF ≠ "" then
                         generate_password_hash salt (pyStrip pwF)
                       else u.password }
          else u)).length,
          (List.map (fun u =>
            if u.id == s.user_id then
              { u with name := if pyStrip nmF ≠ "" then pyStrip nmF else u.name,
                       password := if pyStrip pwF ≠ "" then
                           generate_password_hash salt (pyStrip pwF)
                         else u.password }
            else u) st.users).get ⟨i, hj⟩ =
            (fun u =>
              if u.id == s.user_id then
                { u with name := if pyStrip nmF ≠ "" then pyStrip nmF else u.name,
                         password := if pyStrip pwF ≠ "" then
                             generate_password_hash salt (pyStrip pwF)
                           else u.password }
              else u) (st.users.get ⟨i, hi⟩) := by
        intro hj
        simp [List.get_eq_getElem, List.getElem_map]
      rw [hget hi2]
      generalize st.users.get ⟨i, hi⟩ = u
      by_cases hid : u.id = s.user_id
      · simp [hid]
      · simp [hid]
    · intro e p
      simp only [login]
      cases hf : st.users.find? (fun u => u.email == normalizeEmail e) with
      | none => rfl
      | some u =>
        rcases Bool.eq_false_or_eq_true (check_password_hash u.password p) with hc | hc <;>
          simp [hc]
    · intro d o dest
      simp only [book_trip, hs]
      split
      · rfl
      · rfl
    · intro salt2 nm2 e2 p2 r2 u hm
      simp only [signup]
      split
      · exact hm
      · split
        · exact hm
        · exact List.mem_append_left _ hm

/-- The state after updating the profile of the signed-up user in `stA`
with name "Bo" and password "npw" (salt 9). -/
def stP : AppState :=
  { stA with users := [⟨1, "Bo", "a@x.com", ⟨9, "npw"⟩, "passenger"⟩],
             session := some ⟨1, "passenger", "Bo"⟩ }

theorem profile_update_frame_witness :
    stP.users.length = stA.users.length ∧
    stP.bookings = stA.bookings ∧
    stP.session = some ⟨1, "passenger", "Bo"⟩ := by
  have h := profile_update_frame stA 9 "Bo" "npw" ⟨1, "passenger", "Ann"⟩ stP
    (by decide) (by decide)
  exact ⟨h.1, h.2.1, h.2.2.2.1⟩

/-- C9: when the user table lists users in creation order (strictly
increasing ids, as the auto-increment id column guarantees), `manage_users`
returns all User rows — a permutation of the table — ordered by id
descending, which is exactly the reverse of creation order. -/
theorem manage_users_newest_first (st : AppState)
    (hinc : st.users.Pairwise (fun a b => a.id < b.id)) :
    manage_users st = st.users.reverse ∧
    List.Sorted newerUser (manage_users st) ∧
    List.Perm (manage_users st) st.users :=
  ⟨insertionSort_newerUser_reverse hinc,
    List.sorted_insertionSort _ _, List.perm_insertionSort _ _⟩

/-- The state after a second signup on top of `stA`. -/
def stB : AppState := (signup stA 3 "Bob" "b@x.com" "pw2" "driver").2

theorem manage_users_newest_first_witness :
    manage_users stB = stB.users.reverse :=
  (manage_users_newest_first stB (by decide)).1

/-- C10: signup stores the normalized (stripped, lowercased) email; a
signup whose email agrees with a registered user's stored email after
normalization — so in particular one differing only in letter case or
surrounding whitespace — is rejected as a duplicate; and login succeeds
with any case/whitespace variant of the signup email, given the right
password. -/
theorem email_normalization_spec (st : AppState) (salt : Nat)
    (nm e p r e2 p2 : String) (st2 : AppState) :
    (signup st salt nm e p r = (SignupResult.success, st2) →
      ∃ u : User, st2.users = st.users ++ [u] ∧ u.email = normalizeEmail e) ∧
    (normalizeEmail e2 ≠ "" → p2 ≠ "" → (r = "passenger" ∨ r = "driver" ∨ r = "admin") →
      (∃ u ∈ st.users, u.email = normalizeEmail e2) →
      signup st salt nm e2 p2 r = (SignupResult.conflictError, st)) ∧
    (∀ u ∈ st.users, st.users.Pairwise (fun a b => a.email ≠ b.email) →
      u.email = normalizeEmail e2 → check_password_hash u.password p2 = true →
      login st e2 p2 =
        (LoginResult.success, { st with session := some ⟨u.id, u.role, u.name⟩ })) := by
  refine ⟨?_, ?_, ?_⟩
  · intro h
    simp only [signup] at h
    split at h
    · simp at h
    · split at h
      · simp at h
      · obtain ⟨-, rfl⟩ := Prod.mk.injEq .. |>.mp h
        exact ⟨_, rfl, rfl⟩
  · intro h1 h2 h3 hreg
    obtain ⟨u, hm, he⟩ := hreg
    have hsome : (st.users.find? (fun x => x.email == normalizeEmail e2)).isSome = true := by
      apply List.find?_isSome.mpr
      exact ⟨u, hm, by simpa using he⟩
    simp only [signup]
    rw [if_neg (signup_cond_false h1 h2 h3), if_pos hsome]
  · intro u hm hp he hc
    simp only [login, find?_email_eq_some hp hm he, hc]
    simp

theorem email_normalization_spec_witness :
    (∃ u : User, stA.users = st0.users ++ [u] ∧ u.email = normalizeEmail " A@X.com ") ∧
    signup stA 3 "Bob" " A@X.COM" "pw2" "driver" = (SignupResult.conflictError, stA) ∧
    login stA "A@X.COM " "pw" =
      (LoginResult.success, { stA with session := some ⟨1, "passenger", "Ann"⟩ }) := by
  refine ⟨?_, ?_, ?_⟩
  · exact (email_normalization_spec st0 7 "Ann" " A@X.com " "pw" "passenger" "x" "x" stA).1
      (by decide)
  · exact (email_normalization_spec stA 3 "Bob" "x" "x" "driver" " A@X.COM" "pw2" stA).2.1
      (by decide) (by decide) (by decide)
      ⟨⟨1, "Ann", "a@x.com", ⟨7, "pw"⟩, "passenger"⟩, by decide, by decide⟩
  · exact (email_normalization_spec stA 7 "x" "x" "x" "x" "A@X.COM " "pw" stA).2.2
      ⟨1, "Ann", "a@x.com", ⟨7, "pw"⟩, "passenger"⟩
      (by decide) (by decide) (by decide) (by decide)
